import Mathlib

/-!
Shallow embedding of the HVAC load-and-sizing calculation core
(Manual J / S / D engines) of the hvac-app repository, together with
theorems settling the frozen claims about it.

Numeric convention: JavaScript numbers are modelled as exact rationals.
Division results that can be non-finite in JavaScript (Infinity, NaN)
are modelled by the JSNum type below, with the JavaScript comparison
semantics (every comparison against NaN is false).
-/

set_option maxRecDepth 100000

namespace HvacApp

/-! ## JavaScript numeric helpers -/

/-- Model of Math.round: round half toward positive infinity. -/
def jsRound (q : ℚ) : ℚ := ((⌊q + 1/2⌋ : ℤ) : ℚ)

/-- Model of Math.ceil. -/
def jsCeil (q : ℚ) : ℚ := ((⌈q⌉ : ℤ) : ℚ)

/-- Model of parseFloat(x.toFixed(k)) on a finite value: round to k decimal
digits, ties away from zero. -/
def jsToFixed (k : ℕ) (q : ℚ) : ℚ :=
  if 0 ≤ q then ((⌊q * 10 ^ k + 1/2⌋ : ℤ) : ℚ) / 10 ^ k
  else -(((⌊(-q) * 10 ^ k + 1/2⌋ : ℤ) : ℚ) / 10 ^ k)

/-- JavaScript number with the IEEE special values that arise from division. -/
inductive JSNum where
  | num (q : ℚ)
  | posInf
  | negInf
  | nan
deriving DecidableEq

/-- JavaScript division a / b: finite quotient when b is nonzero, otherwise
Infinity, -Infinity or NaN depending on the sign of a. -/
def jsDiv (a b : ℚ) : JSNum :=
  if b = 0 then (if 0 < a then JSNum.posInf else if a < 0 then JSNum.negInf else JSNum.nan)
  else JSNum.num (a / b)

/-- JavaScript comparison x < c against a finite constant; false on NaN. -/
def JSNum.ltc : JSNum → ℚ → Bool
  | JSNum.num q, c => decide (q < c)
  | JSNum.posInf, _ => false
  | JSNum.negInf, _ => true
  | JSNum.nan, _ => false

/-- JavaScript comparison x > c against a finite constant; false on NaN. -/
def JSNum.gtc : JSNum → ℚ → Bool
  | JSNum.num q, c => decide (c < q)
  | JSNum.posInf, _ => true
  | JSNum.negInf, _ => false
  | JSNum.nan, _ => false

/-- JavaScript comparison x >= c against a finite constant; false on NaN. -/
def JSNum.gec : JSNum → ℚ → Bool
  | JSNum.num q, c => decide (c ≤ q)
  | JSNum.posInf, _ => true
  | JSNum.negInf, _ => false
  | JSNum.nan, _ => false

/-- JavaScript comparison x <= c against a finite constant; false on NaN. -/
def JSNum.lec : JSNum → ℚ → Bool
  | JSNum.num q, c => decide (q ≤ c)
  | JSNum.posInf, _ => false
  | JSNum.negInf, _ => true
  | JSNum.nan, _ => false

/-- Multiplication of a JavaScript number by the positive constant 100
(used for the percent scaling in the AED excursion). -/
def JSNum.scale100 : JSNum → JSNum
  | JSNum.num q => JSNum.num (q * 100)
  | x => x

/-- Model of parseFloat(x.toFixed(k)) lifted to JSNum; the special values
survive the round trip (toFixed of Infinity or NaN parses back to itself). -/
def JSNum.toFixedN (k : ℕ) : JSNum → JSNum
  | JSNum.num q => JSNum.num (jsToFixed k q)
  | x => x

/-- Math.round lifted to JSNum; Infinity and NaN are fixed points. -/
def JSNum.roundNum : JSNum → JSNum
  | JSNum.num q => JSNum.num (jsRound q)
  | x => x

/-- True exactly on finite values (neither Infinity nor NaN). -/
def JSNum.isFinite : JSNum → Bool
  | JSNum.num _ => true
  | _ => false

/-! ## Association-list model of a JavaScript object used as a breakdown map.
String keys in insertion order; updating an existing key keeps its position,
a new key is appended, matching JavaScript property-order semantics for
non-index keys. -/

/-- Model of obj\x7bk\x7d = (obj\x7bk\x7d || 0) + v. -/
def updAdd : List (String × ℚ) → String → ℚ → List (String × ℚ)
  | [], k, v => [(k, v)]
  | p :: rest, k, v => if p.1 = k then (p.1, p.2 + v) :: rest else p :: updAdd rest k v

/-- Model of obj\x7bk\x7d = v. -/
def updSet : List (String × ℚ) → String → ℚ → List (String × ℚ)
  | [], k, v => [(k, v)]
  | p :: rest, k, v => if p.1 = k then (p.1, v) :: rest else p :: updSet rest k v

/-- Sum of the values of a breakdown map. -/
def bkSum (m : List (String × ℚ)) : ℚ := (m.map Prod.snd).sum

/-- Key membership in a breakdown map. -/
def keyMem (m : List (String × ℚ)) (k : String) : Bool := m.any (fun p => p.1 == k)

/-- Maximum of a list of rationals, as Math.max over a spread nonempty list
(the empty case is never reached by the code; it is given the value 0). -/
def listMax : List ℚ → ℚ
  | [] => 0
  | [x] => x
  | x :: y :: xs => max x (listMax (y :: xs))

/-! ## Data model (src/types.ts restricted to the fields the engines read) -/

structure ClimateConditions where
  outdoorTempWinter : ℚ
  outdoorTempSummer : ℚ
  indoorTempWinter : ℚ
  indoorTempSummer : ℚ
  indoorRHSummer : ℚ
  latitude : ℚ
  dailyRange : String
  orientation : String
deriving DecidableEq

/-- One building surface; optional fields model properties that may be
absent (undefined) on the JavaScript object. -/
structure Surface where
  name : String
  type : String
  area : ℚ
  uValue : ℚ
  shgc : Option ℚ
  orientation : Option String
  internalShading : Option ℚ
  cltd : Option ℚ
deriving DecidableEq

structure InfiltrationSpec where
  method : String
  value : ℚ
  volume : ℚ
deriving DecidableEq

/-- Duct specification; only the location field is read by the engine. -/
structure DuctSpec where
  location : String
deriving DecidableEq

structure InternalLoads where
  occupants : ℚ
  applianceSensible : ℚ
  applianceLatent : ℚ
deriving DecidableEq

structure ManualJInput where
  design : ClimateConditions
  surfaces : List Surface
  infiltration : InfiltrationSpec
  ducts : DuctSpec
  internals : InternalLoads
deriving DecidableEq

structure BreakdownItem where
  component : String
  heating : ℚ
  cooling : ℚ
deriving DecidableEq

structure ManualJOutput where
  heatingLoad : ℚ
  coolingSensible : ℚ
  coolingLatent : ℚ
  totalCooling : ℚ
  coolingLoad : ℚ
  heatingCFM : ℚ
  coolingCFM : ℚ
  breakdown : List BreakdownItem
  grainsDifference : ℚ
deriving DecidableEq

/-! ## Solar gain model (SOLAR_PEAK_GAINS table and getSolarGainFactor) -/

/-- First-match association lookup, modelling a JavaScript property read
table\x7bkey\x7d on an object literal. -/
def tblLookup : List (String × ℚ) → String → Option ℚ
  | [], _ => none
  | p :: t, k => if p.1 = k then some p.2 else tblLookup t k

/-- The SOLAR_PEAK_GAINS table keyed by latitude bucket. -/
def solarTable (bucket : ℚ) : Option (List (String × ℚ)) :=
  if bucket = 30 then
    some [("N",37),("NE",114),("E",202),("SE",198),("S",110),("SW",198),("W",202),("NW",114),("Horizontal",262)]
  else if bucket = 40 then
    some [("N",39),("NE",108),("E",216),("SE",200),("S",106),("SW",200),("W",216),("NW",108),("Horizontal",258)]
  else if bucket = 50 then
    some [("N",39),("NE",100),("E",219),("SE",195),("S",104),("SW",195),("W",219),("NW",100),("Horizontal",246)]
  else none

/-- ManualJEngine.getSolarGainFactor: bucket the latitude to 30/40/50 and
look the orientation up, returning 50 when the table or entry is absent
(or the entry is falsy, which no table value is). -/
def getSolarGainFactor (lat : ℚ) (orient : String) : ℚ :=
  let bucket := jsRound (lat / 10) * 10
  let safeBucket := max 30 (min 50 bucket)
  match solarTable safeBucket with
  | none => 50
  | some table =>
    match tblLookup table orient with
    | none => 50
    | some v => if v = 0 then 50 else v

/-! ## Manual J engine (src/services/engines/manualJEngine.ts) -/

/-- PSYCH.LATENT_FACTOR (0.68). -/
def PSYCH_LATENT_FACTOR : ℚ := 17/25

/-- PSYCH.SENSIBLE_FACTOR (1.1). -/
def PSYCH_SENSIBLE_FACTOR : ℚ := 11/10

/-- PSYCH.HUMIDITY_RATIO_INDOOR (65). -/
def PSYCH_HUMIDITY_RATIO_INDOOR : ℚ := 65

/-- ManualJEngine.calculateGrainsDiff. -/
def calculateGrainsDiff (design : ClimateConditions) : ℚ :=
  let estimatedOutdoorGrains := design.outdoorTempSummer * (7/5) - 10
  max 0 (estimatedOutdoorGrains - PSYCH_HUMIDITY_RATIO_INDOOR)

/-- Truthiness of an optional number (undefined and 0 are falsy). -/
def truthyOptQ : Option ℚ → Bool
  | some q => decide (q ≠ 0)
  | none => false

/-- Truthiness of an optional string (undefined and the empty string are falsy). -/
def truthyOptS : Option String → Bool
  | some s => decide (s ≠ "")
  | none => false

/-- Model of surf.internalShading || 1.0. -/
def shadeFactor (s : Surface) : ℚ :=
  match s.internalShading with
  | some v => if v = 0 then 1 else v
  | none => 1

/-- dT_Heat of the calculate function. -/
def dTHeat (design : ClimateConditions) : ℚ :=
  max 0 (design.indoorTempWinter - design.outdoorTempWinter)

/-- dT_Cool of the calculate function. -/
def dTCool (design : ClimateConditions) : ℚ :=
  max 0 (design.outdoorTempSummer - design.indoorTempSummer)

/-- Heating load of a single surface: uValue * area * dT_Heat. -/
def heatLoadOf (dTH : ℚ) (s : Surface) : ℚ := s.uValue * s.area * dTH

/-- Cooling load of a single surface, with the window / CLTD / plain
transmission branches of the surface loop. -/
def coolLoadOf (design : ClimateConditions) (dTC : ℚ) (s : Surface) : ℚ :=
  if (s.type == "window") && truthyOptQ s.shgc && truthyOptS s.orientation then
    s.uValue * s.area * dTC +
      s.area * s.shgc.getD 0 * getSolarGainFactor design.latitude (s.orientation.getD "") *
        shadeFactor s
  else if s.cltd.isSome then s.uValue * s.area * s.cltd.getD 0
  else s.uValue * s.area * dTC

/-- Accumulator of the surface loop: running totals and breakdown maps. -/
structure JState where
  heatingTotal : ℚ
  heatingBk : List (String × ℚ)
  coolingSens : ℚ
  coolingLat : ℚ
  coolingBk : List (String × ℚ)
deriving DecidableEq

/-- One iteration of the surfaces.forEach loop. -/
def stepSurface (design : ClimateConditions) (dTH dTC : ℚ) (st : JState) (s : Surface) : JState :=
  let hl := heatLoadOf dTH s
  let cl := coolLoadOf design dTC s
  { heatingTotal := st.heatingTotal + hl
    heatingBk := updAdd st.heatingBk s.name (jsRound hl)
    coolingSens := st.coolingSens + cl
    coolingLat := st.coolingLat
    coolingBk := updAdd st.coolingBk s.name (jsRound cl) }

/-- State after the whole surface loop, started from the zero state. -/
def surfState (input : ManualJInput) : JState :=
  input.surfaces.foldl
    (stepSurface input.design (dTHeat input.design) (dTCool input.design))
    ⟨0, [], 0, 0, []⟩

/-- Infiltration airflow: ACH converts through the volume, any other
method multiplies the value by 0.05 (the else branch of the code). -/
def infiltrationCFM (inf : InfiltrationSpec) : ℚ :=
  if inf.method = "ACH" then inf.value * inf.volume / 60
  else inf.value * (1/20)

/-- infHeat local: cfm * SENSIBLE_FACTOR * dT_Heat. -/
def infHeatQ (input : ManualJInput) : ℚ :=
  infiltrationCFM input.infiltration * PSYCH_SENSIBLE_FACTOR * dTHeat input.design

/-- infCoolSens local: cfm * SENSIBLE_FACTOR * dT_Cool. -/
def infCoolSensQ (input : ManualJInput) : ℚ :=
  infiltrationCFM input.infiltration * PSYCH_SENSIBLE_FACTOR * dTCool input.design

/-- infCoolLat local: cfm * LATENT_FACTOR * grainsDifference. -/
def infCoolLatQ (input : ManualJInput) : ℚ :=
  infiltrationCFM input.infiltration * PSYCH_LATENT_FACTOR * calculateGrainsDiff input.design

/-- peopleSens local: occupants * 230. -/
def peopleSensQ (input : ManualJInput) : ℚ := input.internals.occupants * 230

/-- peopleLat local: occupants * 200. -/
def peopleLatQ (input : ManualJInput) : ℚ := input.internals.occupants * 200

/-- Running heating total just before the duct step. -/
def preDuctHeating (input : ManualJInput) : ℚ :=
  (surfState input).heatingTotal + infHeatQ input

/-- Running cooling sensible total just before the duct step. -/
def preDuctCoolingSens (input : ManualJInput) : ℚ :=
  (surfState input).coolingSens + infCoolSensQ input +
    (peopleSensQ input + input.internals.applianceSensible)

/-- Running cooling latent total (never touched by the duct step). -/
def coolingLatTotal (input : ManualJInput) : ℚ :=
  (surfState input).coolingLat + infCoolLatQ input +
    (peopleLatQ input + input.internals.applianceLatent)

/-- Heating breakdown just before the duct step. -/
def heatingBkPre (input : ManualJInput) : List (String × ℚ) :=
  updSet (surfState input).heatingBk "Infiltration" (jsRound (infHeatQ input))

/-- Cooling breakdown just before the duct step. -/
def coolingBkPre (input : ManualJInput) : List (String × ℚ) :=
  updSet
    (updSet
      (updSet (surfState input).coolingBk "Infiltration Sensible" (jsRound (infCoolSensQ input)))
      "Infiltration Latent" (jsRound (infCoolLatQ input)))
    "Internals" (jsRound (peopleSensQ input + input.internals.applianceSensible))

/-- ductHeat local: 15 percent of the running heating total. -/
def ductHeatQ (input : ManualJInput) : ℚ := preDuctHeating input * (15/100)

/-- ductCool local: 20 percent of the running cooling sensible total. -/
def ductCoolQ (input : ManualJInput) : ℚ := preDuctCoolingSens input * (20/100)

/-- Heating total after the conditional duct step. -/
def heatingTotalQ (input : ManualJInput) : ℚ :=
  if input.ducts.location ≠ "conditioned" then preDuctHeating input + ductHeatQ input
  else preDuctHeating input

/-- Cooling sensible total after the conditional duct step. -/
def coolingSensTotalQ (input : ManualJInput) : ℚ :=
  if input.ducts.location ≠ "conditioned" then preDuctCoolingSens input + ductCoolQ input
  else preDuctCoolingSens input

/-- Heating breakdown after the conditional duct step. -/
def heatingBkFinal (input : ManualJInput) : List (String × ℚ) :=
  if input.ducts.location ≠ "conditioned" then
    updSet (heatingBkPre input) "Duct Loss" (jsRound (ductHeatQ input))
  else heatingBkPre input

/-- Cooling breakdown after the conditional duct step. -/
def coolingBkFinal (input : ManualJInput) : List (String × ℚ) :=
  if input.ducts.location ≠ "conditioned" then
    updSet (coolingBkPre input) "Duct Gain" (jsRound (ductCoolQ input))
  else coolingBkPre input

/-- ManualJEngine.calculate. -/
def calculate (input : ManualJInput) : ManualJOutput :=
  let heatingLoad := jsRound (heatingTotalQ input)
  let coolingSensible := jsRound (coolingSensTotalQ input)
  let coolingLatent := jsRound (coolingLatTotal input)
  let totalCooling := coolingSensible + coolingLatent
  { heatingLoad := heatingLoad
    coolingSensible := coolingSensible
    coolingLatent := coolingLatent
    totalCooling := totalCooling
    coolingLoad := totalCooling
    heatingCFM := jsRound (heatingLoad / ((27/25) * 50))
    coolingCFM := jsRound (coolingSensible / ((27/25) * 20))
    breakdown := (heatingBkFinal input).map
      (fun p => ⟨p.1, p.2, (tblLookup (coolingBkFinal input) p.1).getD 0⟩)
    grainsDifference := calculateGrainsDiff input.design }

/-- The same pipeline with the duct loss/gain step removed: the
no-duct-penalty baseline computation the duct-gating claim compares against. -/
def calculateNoDuct (input : ManualJInput) : ManualJOutput :=
  let heatingLoad := jsRound (preDuctHeating input)
  let coolingSensible := jsRound (preDuctCoolingSens input)
  let coolingLatent := jsRound (coolingLatTotal input)
  let totalCooling := coolingSensible + coolingLatent
  { heatingLoad := heatingLoad
    coolingSensible := coolingSensible
    coolingLatent := coolingLatent
    totalCooling := totalCooling
    coolingLoad := totalCooling
    heatingCFM := jsRound (heatingLoad / ((27/25) * 50))
    coolingCFM := jsRound (coolingSensible / ((27/25) * 20))
    breakdown := (heatingBkPre input).map
      (fun p => ⟨p.1, p.2, (tblLookup (coolingBkPre input) p.1).getD 0⟩)
    grainsDifference := calculateGrainsDiff input.design }

/-! ## AED excursion (ManualJEngine.calculateAED).
The half-sine intensity curve uses Math.sin; the engine is parametrized by
sinFn, where sinFn t models Math.sin(t * Math.PI), so every theorem below
holds for the actual sine curve as a special case. -/

structure AEDExcursion where
  hourlyLoads : List ℚ
  maxExcursionPercent : JSNum
  limitPercent : ℚ
  status : String
deriving DecidableEq

/-- Windows filter of calculateAED (type only, unlike the cooling branch). -/
def aedWindows (input : ManualJInput) : List Surface :=
  input.surfaces.filter (fun s => s.type == "window")

/-- windowArea local: sum of window areas. -/
def aedWindowArea (input : ManualJInput) : ℚ :=
  (aedWindows input).foldl (fun a b => a + b.area) 0

/-- windowSHGC local: windows.length > 0 ? windows\x7b0\x7d.shgc || 0.3 : 0.3. -/
def aedWindowSHGC (input : ManualJInput) : ℚ :=
  match aedWindows input with
  | [] => 3/10
  | w :: _ =>
    match w.shgc with
    | some g => if g = 0 then 3/10 else g
    | none => 3/10

/-- peakGlassLoad local. -/
def aedPeakGlass (input : ManualJInput) : ℚ :=
  aedWindowArea input * aedWindowSHGC input *
    getSolarGainFactor input.design.latitude input.design.orientation

/-- baseCoolingLoad local: totalCooling of the full calculation minus the
peak glass load. -/
def aedBase (input : ManualJInput) : ℚ :=
  (calculate input).totalCooling - aedPeakGlass input

/-- Hourly sun intensity max(0, sin(((hour - 7) / 13) * PI)). -/
def aedIntensity (sinFn : ℚ → ℚ) (hour : ℕ) : ℚ :=
  max 0 (sinFn (((hour : ℚ) - 7) / 13))

/-- The 24 hourly load samples. -/
def aedHourly (sinFn : ℚ → ℚ) (input : ManualJInput) : List ℚ :=
  (List.range 24).map (fun h => aedBase input + aedPeakGlass input * aedIntensity sinFn h)

/-- totalGlazingLoad local: sum of the hourly glass loads. -/
def aedTotalGlazing (sinFn : ℚ → ℚ) (input : ManualJInput) : ℚ :=
  ((List.range 24).map (fun h => aedPeakGlass input * aedIntensity sinFn h)).sum

/-- averageGlazingLoad local. -/
def aedAvgGlazing (sinFn : ℚ → ℚ) (input : ManualJInput) : ℚ :=
  aedTotalGlazing sinFn input / 24

/-- maxGlazingLoad local: Math.max over the hourly loads minus the base. -/
def aedMaxGlazing (sinFn : ℚ → ℚ) (input : ManualJInput) : ℚ :=
  listMax (aedHourly sinFn input) - aedBase input

/-- The excursion percentage with JavaScript division semantics (NaN when
the average glazing load is zero). -/
def aedExcursionNum (sinFn : ℚ → ℚ) (input : ManualJInput) : JSNum :=
  JSNum.scale100
    (jsDiv (aedMaxGlazing sinFn input - aedAvgGlazing sinFn input) (aedAvgGlazing sinFn input))

/-- The excursion percentage as a plain rational; agrees with the finite
value of aedExcursionNum whenever the average glazing load is nonzero. -/
def aedExcursionQ (sinFn : ℚ → ℚ) (input : ManualJInput) : ℚ :=
  (aedMaxGlazing sinFn input - aedAvgGlazing sinFn input) / aedAvgGlazing sinFn input * 100

/-- ManualJEngine.calculateAED. -/
def calculateAED (sinFn : ℚ → ℚ) (input : ManualJInput) : AEDExcursion :=
  { hourlyLoads := aedHourly sinFn input
    maxExcursionPercent := JSNum.toFixedN 1 (aedExcursionNum sinFn input)
    limitPercent := 30
    status := if (aedExcursionNum sinFn input).ltc 30 then "Pass" else "Fail" }

/-! ## Multi-orientation sweep (ManualJEngine.calculateMultiOrientation) -/

structure OrientationLoad where
  direction : String
  sensible : ℚ
  latent : ℚ
  total : ℚ
  heatingCFM : ℚ
  coolingCFM : ℚ
deriving DecidableEq

/-- The fixed direction sequence of the sweep. -/
def compassDirections : List String := ["N", "NE", "E", "SE", "S", "SW", "W", "NW"]

/-- The cloned input with design.orientation overridden; the JSON round-trip
clone of the code is modelled by this pure functional update. -/
def overrideOrientation (input : ManualJInput) (dir : String) : ManualJInput :=
  { input with design := { input.design with orientation := dir } }

/-- ManualJEngine.calculateMultiOrientation. -/
def calculateMultiOrientation (input : ManualJInput) : List OrientationLoad :=
  compassDirections.map (fun dir =>
    let result := calculate (overrideOrientation input dir)
    { direction := dir
      sensible := result.coolingSensible
      latent := result.coolingLatent
      total := result.totalCooling
      heatingCFM := result.heatingCFM
      coolingCFM := result.coolingCFM })

/-! ## Manual S engine, primary variant
(src/services/engines/manualSEngine.ts, class ManualSEngine) -/

structure SPerformance where
  heatingBTUh : ℚ
  totalCoolingBTUh : ℚ
  sensibleCoolingBTUh : ℚ
deriving DecidableEq

/-- Equipment details restricted to the performance block the verifier reads. -/
structure SEquipment where
  performance : SPerformance
deriving DecidableEq

structure SLoad where
  totalHeating : ℚ
  totalCooling : ℚ
  totalSensible : ℚ
deriving DecidableEq

/-- ManualSResult; the ratio fields carry the toFixed(2) rounded values. -/
structure ManualSResult where
  status : String
  ratioTotal : JSNum
  ratioSensible : JSNum
  ratioHeating : JSNum
  minCoolingBTU : ℚ
  maxCoolingBTU : ℚ
deriving DecidableEq

/-- ManualSEngine.verifySelection (primary variant): unguarded divisions,
then three consecutive non-exclusive if statements assigning the status. -/
def verifySelection (load : SLoad) (equipment : SEquipment) : ManualSResult :=
  let performance := equipment.performance
  let ratioTotal := jsDiv performance.totalCoolingBTUh load.totalCooling
  let ratioSensible := jsDiv performance.sensibleCoolingBTUh load.totalSensible
  let ratioHeating := jsDiv performance.heatingBTUh load.totalHeating
  let status1 := if ratioTotal.ltc (19/20) then "Fail: Undersized" else "Pass"
  let status2 := if ratioTotal.gtc (23/20) then "Fail: Oversized" else status1
  let status3 := if ratioSensible.ltc 1 then "Warning: SHR Mismatch" else status2
  { status := status3
    ratioTotal := JSNum.toFixedN 2 ratioTotal
    ratioSensible := JSNum.toFixedN 2 ratioSensible
    ratioHeating := JSNum.toFixedN 2 ratioHeating
    minCoolingBTU := jsRound (load.totalCooling * (19/20))
    maxCoolingBTU := jsRound (load.totalCooling * (23/20)) }

/-! ## Manual S engine, SizingCompliance variant
(second class in src/services/engines/manualSEngine.ts) -/

structure SizingLoad where
  sensible : ℚ
  total : ℚ
  heating : ℚ
deriving DecidableEq

/-- SizingCompliance result; the compliance fields carry the numeric value
of the toFixed(2) strings, and the display-only notes string is omitted. -/
structure SizingCompliance where
  isCompliant : Bool
  ratioCooling : JSNum
  ratioHeating : JSNum
  status : String
  coolingCompliance : JSNum
  sensibleCompliance : JSNum
  heatingCompliance : JSNum
deriving DecidableEq

/-- Model of the JavaScript expression x || 1 on a number. -/
def orOne (x : ℚ) : ℚ := if x = 0 then 1 else x

/-- verifySelection of the SizingCompliance variant: denominators clamped
with || 1, status chosen by an exclusive else-if chain with ceiling 1.25. -/
def verifySelectionSizing (load equipment : SizingLoad) : SizingCompliance :=
  let ratioCooling := jsDiv equipment.total (orOne load.total)
  let ratioHeating := jsDiv equipment.heating (orOne load.heating)
  let ratioSensible := jsDiv equipment.sensible (orOne load.sensible)
  let status :=
    if ratioCooling.ltc (19/20) then "UNDERSIZED"
    else if ratioCooling.gtc (5/4) then "OVERSIZED"
    else "OPTIMAL"
  { isCompliant := ratioCooling.gec (19/20) && ratioCooling.lec (5/4) && ratioHeating.gec 1
    ratioCooling := ratioCooling
    ratioHeating := ratioHeating
    status := status
    coolingCompliance := JSNum.toFixedN 2 ratioCooling
    sensibleCompliance := JSNum.toFixedN 2 ratioSensible
    heatingCompliance := JSNum.toFixedN 2 ratioHeating }

/-! ## Manual D engine (ManualDEngine.designSystem).
Math.pow(x, 0.45) is not rational; the engine is parametrized by powFn,
where powFn x models Math.pow(x, 0.45), so the theorems below hold for the
actual power curve as a special case. Math.PI is the exact rational value
of the double-precision constant. -/

/-- The exact rational value of the IEEE-754 double Math.PI. -/
def jsPI : ℚ := 884279719003555 / 281474976710656

structure RoomCFM where
  name : String
  cfm : ℚ
deriving DecidableEq

structure DuctBranch where
  name : String
  cfm : ℚ
  roundSize : ℚ
  velocity : JSNum
deriving DecidableEq

structure DuctSizing where
  frictionRate : JSNum
  totalCFM : ℚ
  branches : List DuctBranch
deriving DecidableEq

/-- roundSize local of the branch map, before the minimum-diameter floor:
Math.ceil(Math.pow(cfm / 15, 0.45) * 2) / 2. -/
def branchComputedSize (powFn : ℚ → ℚ) (cfm : ℚ) : ℚ :=
  jsCeil (powFn (cfm / 15) * 2) / 2

/-- Branch velocity: cfm divided by the cross-sectional area computed from
the pre-floor roundSize local, then Math.round. -/
def branchVelocity (powFn : ℚ → ℚ) (cfm : ℚ) : JSNum :=
  JSNum.roundNum (jsDiv cfm (jsPI * ((branchComputedSize powFn cfm / 2) / 12) ^ 2))

/-- ManualDEngine.designSystem; asp and tel default to 0.5 and 250 at the
call sites. -/
def designSystem (powFn : ℚ → ℚ) (rooms : List RoomCFM) (asp tel : ℚ) : DuctSizing :=
  { frictionRate := JSNum.toFixedN 3 (jsDiv (asp * 100) tel)
    totalCFM := jsRound (rooms.foldl (fun acc r => acc + r.cfm) 0)
    branches := rooms.map (fun room =>
      { name := room.name
        cfm := jsRound room.cfm
        roundSize := max 5 (branchComputedSize powFn room.cfm)
        velocity := branchVelocity powFn room.cfm }) }

/-! ## Concrete inputs used by witnesses and counterexamples -/

/-- Climate with a 10 degree winter differential, no summer differential and
no grains difference (50 * 1.4 - 10 - 65 < 0). -/
def testClimate : ClimateConditions :=
  { outdoorTempWinter := 70
    outdoorTempSummer := 50
    indoorTempWinter := 80
    indoorTempSummer := 50
    indoorRHSummer := 50
    latitude := 40
    dailyRange := "M"
    orientation := "S" }

def noInfiltration : InfiltrationSpec := ⟨"ACH", 0, 0⟩

/-- ACH infiltration producing exactly 10 CFM (10 * 60 / 60). -/
def achTenInfiltration : InfiltrationSpec := ⟨"ACH", 10, 60⟩

def conditionedDucts : DuctSpec := ⟨"conditioned"⟩

def atticDucts : DuctSpec := ⟨"attic"⟩

def noInternals : InternalLoads := ⟨0, 0, 0⟩

def wallSurface : Surface := ⟨"Wall", "wall", 100, 1/20, none, none, none, none⟩

/-- Input whose whole heating load is the infiltration term: 10 CFM and a
10 degree heating differential, nothing else. -/
def c2Input : ManualJInput := ⟨testClimate, [], achTenInfiltration, conditionedDucts, noInternals⟩

def c3Load : SLoad := ⟨1000, 1000, 1000⟩

/-- Equipment at half the cooling load and half the sensible load. -/
def c3Equipment : SEquipment := ⟨⟨900, 500, 500⟩⟩

/-- Unconditioned ducts, two occupants and no other load at all. -/
def c5Input : ManualJInput := ⟨testClimate, [], noInfiltration, atticDucts, ⟨2, 0, 0⟩⟩

/-- Unconditioned ducts with a zero load everywhere. -/
def c6Input : ManualJInput := ⟨testClimate, [], noInfiltration, atticDucts, noInternals⟩

/-- Attic ducts with positive heating and cooling running totals. -/
def ductWitnessInput : ManualJInput := ⟨testClimate, [wallSurface], achTenInfiltration, atticDucts, ⟨2, 0, 0⟩⟩

/-- Load with a zero total-cooling denominator. -/
def c7Load : SLoad := ⟨1000, 0, 1000⟩

def c7Equipment : SEquipment := ⟨⟨1000, 10000, 1000⟩⟩

/-- Input with no window at all, so the AED glazing average is zero. -/
def c8Input : ManualJInput := ⟨testClimate, [], noInfiltration, conditionedDucts, noInternals⟩

def aedWindowSurface : Surface := ⟨"Win", "window", 100, 0, some (1/2), some "S", none, none⟩

/-- Input with one south window of positive glazing load. -/
def c8WitnessInput : ManualJInput := ⟨testClimate, [aedWindowSurface], noInfiltration, conditionedDucts, noInternals⟩

/-- Stand-in for the sine curve: identity (positive on afternoon hours). -/
def linearSin : ℚ → ℚ := fun t => t

/-- Stand-in for the sine curve: constantly zero. -/
def zeroSin : ℚ → ℚ := fun _ => 0

/-- Stand-in for the sine curve: constantly one. -/
def oneSin : ℚ → ℚ := fun _ => 1

/-- Surface with a negative U-value. -/
def c10SurfaceA : Surface := ⟨"W", "wall", 1, -1, none, none, none, none⟩

def c10SurfaceB : Surface := { c10SurfaceA with area := 2 }

def c10InputA : ManualJInput := ⟨testClimate, [c10SurfaceA], noInfiltration, conditionedDucts, noInternals⟩

def c10InputB : ManualJInput := { c10InputA with surfaces := [c10SurfaceB] }

/-- Stand-in for Math.pow(x, 0.45): the constant 0.8, which is the value
class the real curve takes at 10/15 (pow(2/3, 0.45) is about 0.833, and
any value in (1/2, 1] gives the same ceiled half-inch size 1). -/
def constPow : ℚ → ℚ := fun _ => 4/5

def closetRooms : List RoomCFM := [⟨"Closet", 10⟩]

def defaultBranch : DuctBranch := ⟨"", 0, 0, JSNum.nan⟩

def defaultOrientationLoad : OrientationLoad := ⟨"", 0, 0, 0, 0, 0⟩

def defaultRoom : RoomCFM := ⟨"", 0⟩

/-- The same input with the infiltration value zeroed, so that the
difference against the original isolates the infiltration contribution. -/
def withZeroInfiltration (input : ManualJInput) : ManualJInput :=
  { input with infiltration := { input.infiltration with value := 0 } }

/-! ## Helper lemmas -/

theorem infiltrationCFM_zero (inf : InfiltrationSpec) :
    infiltrationCFM { inf with value := 0 } = 0 := by
  unfold infiltrationCFM
  split <;> ring

theorem jsRound_mono {a b : ℚ} (h : a ≤ b) : jsRound a ≤ jsRound b := by
  unfold jsRound
  exact_mod_cast Int.floor_le_floor (by linarith)

theorem jsRound_err (q : ℚ) : |jsRound q - q| ≤ 1/2 := by
  unfold jsRound
  rw [abs_le]
  constructor
  · have h := Int.lt_floor_add_one (q + 1/2)
    push_cast at h ⊢
    linarith
  · have h := Int.floor_le (q + 1/2)
    push_cast at h ⊢
    linarith

theorem jsToFixed_nonneg {k : ℕ} {q : ℚ} (h : 0 ≤ q) : 0 ≤ jsToFixed k q := by
  unfold jsToFixed
  rw [if_pos h]
  apply div_nonneg _ (by positivity)
  have : (0 : ℤ) ≤ ⌊q * 10 ^ k + 1/2⌋ := Int.floor_nonneg.mpr (by positivity)
  exact_mod_cast this

theorem orOne_ne_zero (x : ℚ) : orOne x ≠ 0 := by
  unfold orOne
  split
  · norm_num
  · assumption

theorem jsDiv_orOne (a x : ℚ) : jsDiv a (orOne x) = JSNum.num (a / orOne x) := by
  unfold jsDiv
  rw [if_neg (orOne_ne_zero x)]

/-! ## Claim theorems -/

/-- Claim C1: with the CFM infiltration method the code multiplies the
supplied value by 0.05 instead of using it directly, while the ACH branch
divides value times volume by 60 as specified: at value 100 the airflow
used is 5, not 100. -/
theorem C1_cfm_method_scaled :
    infiltrationCFM { method := "CFM", value := 100, volume := 0 } = 5 ∧
    (5 : ℚ) ≠ 100 ∧
    infiltrationCFM { method := "ACH", value := 2, volume := 60 } = 2 := by
  with_unfolding_all decide

/-- Claim C2, counterexample: with 10 CFM of infiltration, a 10 degree
heating differential and no other load, the running heating total is 110
(cfm times 1.1 times dT), while the claimed formula cfm times 1.08 times dT
gives 108. -/
theorem C2_factor_counterexample :
    preDuctHeating c2Input = 110 ∧
    infiltrationCFM c2Input.infiltration * (27/25) * dTHeat c2Input.design = 108 ∧
    (110 : ℚ) ≠ 108 := by
  with_unfolding_all decide

/-- Claim C3, counterexample: with a cooling capacity ratio of 0.5 (below
0.95) and a sensible ratio of 0.5 (below 1), the returned status is the SHR
warning, not the undersized failure the claim gives top priority to. -/
theorem C3_priority_counterexample :
    ((jsDiv c3Equipment.performance.totalCoolingBTUh c3Load.totalCooling).ltc (19/20)) = true ∧
    (verifySelection c3Load c3Equipment).status = "Warning: SHR Mismatch" ∧
    (verifySelection c3Load c3Equipment).status ≠ "Fail: Undersized" := by
  with_unfolding_all decide

/-- Claim C4, counterexample: for a 10 CFM room the computed half-inch size
is 1, the reported diameter is floored to 5, and the reported velocity (1833
FPM, computed from the 1-inch pre-floor size) is not the velocity computed
from the reported 5-inch diameter (73 FPM). -/
theorem C4_velocity_counterexample :
    ((designSystem constPow closetRooms (1/2) 250).branches.map (fun b => b.roundSize)) = [5] ∧
    ((designSystem constPow closetRooms (1/2) 250).branches.map (fun b => b.velocity)) =
      [JSNum.num 1833] ∧
    JSNum.roundNum (jsDiv 10 (jsPI * (((5 : ℚ) / 2 / 12)) ^ 2)) = JSNum.num 73 ∧
    JSNum.num (1833 : ℚ) ≠ JSNum.num 73 := by
  with_unfolding_all decide

/-- Claim C5, counterexample: with two occupants (460 BTU/hr of internal
sensible gain, 552 after the duct gain factor) the breakdown has only the
Infiltration and Duct Loss items, no internal-gains item, and its cooling
column sums to 0 even though coolingSensible is 552. -/
theorem C5_breakdown_counterexample :
    ((calculate c5Input).breakdown.map (fun b => b.component)) = ["Infiltration", "Duct Loss"] ∧
    (calculate c5Input).coolingSensible = 552 ∧
    ((calculate c5Input).breakdown.map (fun b => b.cooling)).sum = 0 := by
  with_unfolding_all decide

/-- Claim C6, counterexample: with unconditioned ducts but an all-zero load,
the heating total equals the no-duct-penalty baseline (both 0), so it is not
strictly greater as the claim requires for every such input. -/
theorem C6_strictness_counterexample :
    c6Input.ducts.location ≠ "conditioned" ∧
    (calculate c6Input).heatingLoad = (calculateNoDuct c6Input).heatingLoad ∧
    ¬ (calculateNoDuct c6Input).heatingLoad < (calculate c6Input).heatingLoad := by
  with_unfolding_all decide

/-- Claim C7, counterexample: the primary verifySelection divides by the
raw load, so a zero total-cooling load with nonzero capacity yields an
infinite ratio, not a finite clamped one. -/
theorem C7_unguarded_division_counterexample :
    (verifySelection c7Load c7Equipment).ratioTotal = JSNum.posInf ∧
    ((verifySelection c7Load c7Equipment).ratioTotal).isFinite = false := by
  with_unfolding_all decide

/-- Claim C8, counterexample: with no window the average glazing load is 0,
the excursion is NaN (0/0), maxExcursionPercent is NaN (hence not
non-negative and not at least 30) and the status is Fail, refuting both the
non-negativity part and the Fail-iff-30 part; the result does not depend on
the sine stand-in, as the comparison of two different stand-ins shows. -/
theorem C8_nan_counterexample :
    (calculateAED zeroSin c8Input).maxExcursionPercent = JSNum.nan ∧
    ((calculateAED zeroSin c8Input).maxExcursionPercent).gec 0 = false ∧
    (calculateAED zeroSin c8Input).status = "Fail" ∧
    ((calculateAED zeroSin c8Input).maxExcursionPercent).gec 30 = false ∧
    calculateAED oneSin c8Input = calculateAED zeroSin c8Input := by
  with_unfolding_all decide

/-- Claim C10, counterexample: the two inputs are identical except that the
single surface of the second has area 2 instead of 1; because its U-value
is negative, the larger area strictly decreases the heating load. -/
theorem C10_negative_uvalue_counterexample :
    c10SurfaceB = { c10SurfaceA with area := 2 } ∧
    c10SurfaceA.area ≤ c10SurfaceB.area ∧
    (calculate c10InputA).heatingLoad = -10 ∧
    (calculate c10InputB).heatingLoad = -20 ∧
    ¬ (calculate c10InputA).heatingLoad ≤ (calculate c10InputB).heatingLoad := by
  with_unfolding_all decide

/-- Claim C2, amended: the sensible infiltration contribution to the running
heating total is cfm times 1.1 times dT_heat (not 1.08), the contribution to
the running cooling sensible total is cfm times 1.1 times dT_cool, the latent
cooling infiltration contribution is cfm times 0.68 times grainsDifference,
and grainsDifference = max(0, outdoorTempSummer * 1.4 - 10 - 65); the
contributions are stated as the difference against the same input with the
infiltration value zeroed. -/
theorem C2_amended (input : ManualJInput) :
    preDuctHeating input =
      preDuctHeating (withZeroInfiltration input) +
        infiltrationCFM input.infiltration * (11/10) * dTHeat input.design ∧
    preDuctCoolingSens input =
      preDuctCoolingSens (withZeroInfiltration input) +
        infiltrationCFM input.infiltration * (11/10) * dTCool input.design ∧
    coolingLatTotal input =
      coolingLatTotal (withZeroInfiltration input) +
        infiltrationCFM input.infiltration * (17/25) * calculateGrainsDiff input.design ∧
    calculateGrainsDiff input.design =
      max 0 (input.design.outdoorTempSummer * (7/5) - 10 - 65) := by
  have hz : infiltrationCFM (withZeroInfiltration input).infiltration = 0 :=
    infiltrationCFM_zero input.infiltration
  have hsurf : surfState (withZeroInfiltration input) = surfState input := rfl
  have hint : (withZeroInfiltration input).internals = input.internals := rfl
  refine ⟨?_, ?_, ?_, ?_⟩
  · unfold preDuctHeating infHeatQ PSYCH_SENSIBLE_FACTOR
    rw [hsurf]
    show _ = _ + infiltrationCFM (withZeroInfiltration input).infiltration * _ * _ + _
    rw [hz]
    ring
  · unfold preDuctCoolingSens infCoolSensQ PSYCH_SENSIBLE_FACTOR
    rw [hsurf]
    show _ = _ + infiltrationCFM (withZeroInfiltration input).infiltration * _ * _ +
      (peopleSensQ (withZeroInfiltration input) + _) + _
    rw [hz]
    unfold peopleSensQ
    rw [hint]
    ring
  · unfold coolingLatTotal infCoolLatQ PSYCH_LATENT_FACTOR
    rw [hsurf]
    show _ = _ + infiltrationCFM (withZeroInfiltration input).infiltration * _ *
      calculateGrainsDiff (withZeroInfiltration input).design +
      (peopleLatQ (withZeroInfiltration input) + _) + _
    rw [hz]
    unfold peopleLatQ
    rw [hint]
    ring
  · rfl

/-- Claim C3, amended: the three status ifs are not exclusive, so the last
assignment wins; over nonzero loads, the status is the SHR warning whenever
sensibleRatio < 1 (even when the cooling ratio is below 0.95), otherwise the
oversized failure whenever coolingRatio > 1.15, otherwise the undersized
failure whenever coolingRatio < 0.95, otherwise Pass. -/
theorem C3_amended (load : SLoad) (equipment : SEquipment)
    (ht : load.totalCooling ≠ 0) (hs : load.totalSensible ≠ 0) :
    (verifySelection load equipment).status =
      if equipment.performance.sensibleCoolingBTUh / load.totalSensible < 1 then
        "Warning: SHR Mismatch"
      else if (23/20 : ℚ) < equipment.performance.totalCoolingBTUh / load.totalCooling then
        "Fail: Oversized"
      else if equipment.performance.totalCoolingBTUh / load.totalCooling < (19/20 : ℚ) then
        "Fail: Undersized"
      else "Pass" := by
  unfold verifySelection
  dsimp only
  simp only [jsDiv, if_neg ht, if_neg hs, JSNum.ltc, JSNum.gtc]
  by_cases h1 : equipment.performance.sensibleCoolingBTUh / load.totalSensible < 1 <;>
    by_cases h2 : (23/20 : ℚ) < equipment.performance.totalCoolingBTUh / load.totalCooling <;>
      by_cases h3 : equipment.performance.totalCoolingBTUh / load.totalCooling < (19/20 : ℚ) <;>
        simp [h1, h2, h3]

/-- Claim C3, witness: concrete nonzero loads with both ratios at 0.5,
where the undersized condition holds but the status is the SHR warning. -/
theorem C3_amended_witness :
    c3Load.totalCooling ≠ 0 ∧ c3Load.totalSensible ≠ 0 ∧
    (verifySelection c3Load c3Equipment).status =
      (if c3Equipment.performance.sensibleCoolingBTUh / c3Load.totalSensible < 1 then
        "Warning: SHR Mismatch"
      else if (23/20 : ℚ) < c3Equipment.performance.totalCoolingBTUh / c3Load.totalCooling then
        "Fail: Oversized"
      else if c3Equipment.performance.totalCoolingBTUh / c3Load.totalCooling < (19/20 : ℚ) then
        "Fail: Undersized"
      else "Pass") := by
  refine ⟨by with_unfolding_all decide, by with_unfolding_all decide, ?_⟩
  exact C3_amended c3Load c3Equipment (by with_unfolding_all decide)
    (by with_unfolding_all decide)

/-- Claim C6, amended: with conditioned ducts the output equals the
no-duct-penalty computation exactly; with any other location the running
heating total is multiplied by exactly 1.15 and the running cooling sensible
total by exactly 1.20, hence each is strictly above its baseline when the
baseline is positive (and equal when it is zero), and the rounded outputs
never drop below the baseline outputs when the baseline is non-negative. -/
theorem C6_amended (input : ManualJInput) :
    (input.ducts.location = "conditioned" → calculate input = calculateNoDuct input) ∧
    (input.ducts.location ≠ "conditioned" →
      heatingTotalQ input = preDuctHeating input * (23/20) ∧
      coolingSensTotalQ input = preDuctCoolingSens input * (6/5) ∧
      (0 < preDuctHeating input → preDuctHeating input < heatingTotalQ input) ∧
      (0 < preDuctCoolingSens input → preDuctCoolingSens input < coolingSensTotalQ input) ∧
      (0 ≤ preDuctHeating input →
        (calculateNoDuct input).heatingLoad ≤ (calculate input).heatingLoad) ∧
      (0 ≤ preDuctCoolingSens input →
        (calculateNoDuct input).coolingSensible ≤ (calculate input).coolingSensible)) := by
  constructor
  · intro h
    have hn : ¬ input.ducts.location ≠ "conditioned" := by simp [h]
    unfold calculate calculateNoDuct
    unfold heatingTotalQ coolingSensTotalQ heatingBkFinal coolingBkFinal
    rw [if_neg hn, if_neg hn, if_neg hn, if_neg hn]
  · intro h
    have hQ : heatingTotalQ input = preDuctHeating input * (23/20) := by
      unfold heatingTotalQ ductHeatQ
      rw [if_pos h]
      ring
    have hC : coolingSensTotalQ input = preDuctCoolingSens input * (6/5) := by
      unfold coolingSensTotalQ ductCoolQ
      rw [if_pos h]
      ring
    refine ⟨hQ, hC, ?_, ?_, ?_, ?_⟩
    · intro hp
      rw [hQ]
      nlinarith
    · intro hp
      rw [hC]
      nlinarith
    · intro hp
      show jsRound (preDuctHeating input) ≤ jsRound (heatingTotalQ input)
      apply jsRound_mono
      rw [hQ]
      nlinarith
    · intro hp
      show jsRound (preDuctCoolingSens input) ≤ jsRound (coolingSensTotalQ input)
      apply jsRound_mono
      rw [hC]
      nlinarith

/-- Claim C6, witness: at an attic-duct input with positive running totals,
the duct step multiplies the heating total by 1.15 and strictly increases
both totals. -/
theorem C6_witness :
    ductWitnessInput.ducts.location ≠ "conditioned" ∧
    0 < preDuctHeating ductWitnessInput ∧
    0 < preDuctCoolingSens ductWitnessInput ∧
    heatingTotalQ ductWitnessInput = preDuctHeating ductWitnessInput * (23/20) ∧
    preDuctHeating ductWitnessInput < heatingTotalQ ductWitnessInput ∧
    preDuctCoolingSens ductWitnessInput < coolingSensTotalQ ductWitnessInput := by
  have h1 : ductWitnessInput.ducts.location ≠ "conditioned" := by
    with_unfolding_all decide
  have h2 : 0 < preDuctHeating ductWitnessInput := by with_unfolding_all decide
  have h3 : 0 < preDuctCoolingSens ductWitnessInput := by with_unfolding_all decide
  have h := (C6_amended ductWitnessInput).2 h1
  exact ⟨h1, h2, h3, h.1, h.2.2.1 h2, h.2.2.2.1 h3⟩

/-- Claim C7, amended: the SizingCompliance variant of verifySelection
clamps each denominator with an || 1 guard, so its ratios are always finite
rational numbers (the primary ManualSResult variant divides by the raw
loads and is refuted separately). -/
theorem C7_amended (load equipment : SizingLoad) :
    (verifySelectionSizing load equipment).ratioCooling =
      JSNum.num (equipment.total / orOne load.total) ∧
    (verifySelectionSizing load equipment).ratioHeating =
      JSNum.num (equipment.heating / orOne load.heating) ∧
    ((verifySelectionSizing load equipment).ratioCooling).isFinite = true ∧
    ((verifySelectionSizing load equipment).ratioHeating).isFinite = true ∧
    ((verifySelectionSizing load equipment).sensibleCompliance).isFinite = true := by
  unfold verifySelectionSizing
  dsimp only
  rw [jsDiv_orOne, jsDiv_orOne, jsDiv_orOne]
  simp [JSNum.isFinite, JSNum.toFixedN]

/-- Generic fact used for the per-branch statements: getD through a map. -/
theorem getD_map_of_lt {α β : Type} (f : α → β) (l : List α) (i : ℕ) (d : β) (d0 : α)
    (h : i < l.length) : (l.map f).getD i d = f (l.getD i d0) := by
  induction l generalizing i with
  | nil => simp at h
  | cons a t ih =>
    cases i with
    | zero => simp
    | succ n =>
      simp only [List.map_cons, List.getD_cons_succ]
      exact ih n (by simpa using h)

/-- Claim C9: the multi-orientation sweep returns exactly 8 rows in the
fixed N, NE, E, SE, S, SW, W, NW order, and every row carries exactly the
sensible, latent, total and CFM values of a direct calculate call on the
input with design.orientation replaced by that row direction; the model is
pure, so the original input is unchanged by construction. -/
theorem C9_multi_orientation (input : ManualJInput) :
    (calculateMultiOrientation input).length = 8 ∧
    (calculateMultiOrientation input).map (fun r => r.direction) =
      ["N", "NE", "E", "SE", "S", "SW", "W", "NW"] ∧
    ∀ i, i < (calculateMultiOrientation input).length →
      (calculateMultiOrientation input).getD i defaultOrientationLoad =
        { direction := compassDirections.getD i ""
          sensible :=
            (calculate (overrideOrientation input (compassDirections.getD i ""))).coolingSensible
          latent :=
            (calculate (overrideOrientation input (compassDirections.getD i ""))).coolingLatent
          total :=
            (calculate (overrideOrientation input (compassDirections.getD i ""))).totalCooling
          heatingCFM :=
            (calculate (overrideOrientation input (compassDirections.getD i ""))).heatingCFM
          coolingCFM :=
            (calculate (overrideOrientation input (compassDirections.getD i ""))).coolingCFM } := by
  refine ⟨rfl, rfl, ?_⟩
  intro i hi
  have hi8 : i < 8 := hi
  interval_cases i <;> rfl

/-- Claim C9, witness: the third row (east) of the sweep on a concrete
input equals the direct calculate call with east substituted. -/
theorem C9_witness :
    2 < (calculateMultiOrientation c2Input).length ∧
    (calculateMultiOrientation c2Input).getD 2 defaultOrientationLoad =
      { direction := compassDirections.getD 2 ""
        sensible :=
          (calculate (overrideOrientation c2Input (compassDirections.getD 2 ""))).coolingSensible
        latent :=
          (calculate (overrideOrientation c2Input (compassDirections.getD 2 ""))).coolingLatent
        total :=
          (calculate (overrideOrientation c2Input (compassDirections.getD 2 ""))).totalCooling
        heatingCFM :=
          (calculate (overrideOrientation c2Input (compassDirections.getD 2 ""))).heatingCFM
        coolingCFM :=
          (calculate (overrideOrientation c2Input (compassDirections.getD 2 ""))).coolingCFM } := by
  refine ⟨by with_unfolding_all decide, ?_⟩
  exact (C9_multi_orientation c2Input).2.2 2 (by with_unfolding_all decide)

/-- Claim C4, amended: every reported branch diameter is
max(5, ceil(pow(cfm / 15, 0.45) * 2) / 2), so the 5-inch floor always
holds, but the reported velocity is computed from the pre-floor half-inch
size, not from the reported (floored) diameter. -/
theorem C4_amended (powFn : ℚ → ℚ) (rooms : List RoomCFM) (asp tel : ℚ) (i : ℕ)
    (h : i < rooms.length) :
    ((designSystem powFn rooms asp tel).branches).length = rooms.length ∧
    ((designSystem powFn rooms asp tel).branches.getD i defaultBranch).roundSize =
      max 5 (branchComputedSize powFn (rooms.getD i defaultRoom).cfm) ∧
    5 ≤ ((designSystem powFn rooms asp tel).branches.getD i defaultBranch).roundSize ∧
    ((designSystem powFn rooms asp tel).branches.getD i defaultBranch).velocity =
      JSNum.roundNum (jsDiv (rooms.getD i defaultRoom).cfm
        (jsPI * ((branchComputedSize powFn (rooms.getD i defaultRoom).cfm / 2) / 12) ^ 2)) := by
  have hb : (designSystem powFn rooms asp tel).branches =
      rooms.map (fun room =>
        { name := room.name
          cfm := jsRound room.cfm
          roundSize := max 5 (branchComputedSize powFn room.cfm)
          velocity := branchVelocity powFn room.cfm }) := rfl
  have hget := getD_map_of_lt
    (fun room =>
      ({ name := room.name
         cfm := jsRound room.cfm
         roundSize := max 5 (branchComputedSize powFn room.cfm)
         velocity := branchVelocity powFn room.cfm } : DuctBranch))
    rooms i defaultBranch defaultRoom h
  refine ⟨by simp [hb], ?_, ?_, ?_⟩
  · rw [hb, hget]
  · rw [hb, hget]
    exact le_max_left 5 _
  · rw [hb, hget]
    rfl

/-- Claim C4, witness: the single-room system at 10 CFM instantiates the
amended branch formulas (floored diameter 5, velocity from the pre-floor
size). -/
theorem C4_witness :
    0 < closetRooms.length ∧
    ((designSystem constPow closetRooms (1/2) 250).branches.getD 0 defaultBranch).roundSize =
      max 5 (branchComputedSize constPow (closetRooms.getD 0 defaultRoom).cfm) ∧
    5 ≤ ((designSystem constPow closetRooms (1/2) 250).branches.getD 0 defaultBranch).roundSize ∧
    ((designSystem constPow closetRooms (1/2) 250).branches.getD 0 defaultBranch).velocity =
      JSNum.roundNum (jsDiv (closetRooms.getD 0 defaultRoom).cfm
        (jsPI * ((branchComputedSize constPow (closetRooms.getD 0 defaultRoom).cfm / 2) / 12) ^ 2)) := by
  have h := C4_amended constPow closetRooms (1/2) 250 0 (by with_unfolding_all decide)
  exact ⟨by with_unfolding_all decide, h.2.1, h.2.2.1, h.2.2.2⟩

/-- Every member of a list is at most its listMax. -/
theorem le_listMax_of_mem : ∀ (l : List ℚ) (x : ℚ), x ∈ l → x ≤ listMax l
  | [], _, hy => absurd hy (by simp)
  | [x], y, hy => by
      simp at hy
      simp [listMax, hy]
  | a :: b :: t, y, hy => by
      rcases List.mem_cons.mp hy with h | h
      · subst h
        show y ≤ max y (listMax (b :: t))
        exact le_max_left _ _
      · calc y ≤ listMax (b :: t) := le_listMax_of_mem (b :: t) y h
          _ ≤ max a (listMax (b :: t)) := le_max_right _ _

/-- Claim C8, amended: whenever the average glazing load is positive (in
particular whenever some window contributes a positive hourly glass load),
the AED result has exactly 24 hourly samples, maxExcursionPercent is the
one-decimal rounding of the non-negative excursion percentage (hence
non-negative), and the status is Fail exactly when the unrounded excursion
is at least 30 (the code compares the unrounded value, so the reported
rounded percent can be 30.0 with status Pass in the 29.95 to 30 corner). -/
theorem C8_amended (sinFn : ℚ → ℚ) (input : ManualJInput)
    (havg : 0 < aedAvgGlazing sinFn input) :
    (calculateAED sinFn input).hourlyLoads.length = 24 ∧
    (calculateAED sinFn input).maxExcursionPercent =
      JSNum.num (jsToFixed 1 (aedExcursionQ sinFn input)) ∧
    ((calculateAED sinFn input).maxExcursionPercent).gec 0 = true ∧
    0 ≤ aedExcursionQ sinFn input ∧
    (((calculateAED sinFn input).status = "Fail") ↔ 30 ≤ aedExcursionQ sinFn input) := by
  have hne : aedAvgGlazing sinFn input ≠ 0 := ne_of_gt havg
  have hnum : aedExcursionNum sinFn input = JSNum.num (aedExcursionQ sinFn input) := by
    unfold aedExcursionNum jsDiv
    rw [if_neg hne]
    rfl
  have hbound : ∀ x ∈ (List.range 24).map (fun h => aedPeakGlass input * aedIntensity sinFn h),
      x ≤ aedMaxGlazing sinFn input := by
    intro x hx
    rcases List.mem_map.mp hx with ⟨h, hh, rfl⟩
    have hmem : aedBase input + aedPeakGlass input * aedIntensity sinFn h ∈
        aedHourly sinFn input := by
      unfold aedHourly
      exact List.mem_map.mpr ⟨h, hh, rfl⟩
    have hle := le_listMax_of_mem _ _ hmem
    unfold aedMaxGlazing
    linarith
  have hsum := List.sum_le_card_nsmul _ (aedMaxGlazing sinFn input) hbound
  have hmax : aedAvgGlazing sinFn input ≤ aedMaxGlazing sinFn input := by
    have hlen : ((List.range 24).map
        (fun h => aedPeakGlass input * aedIntensity sinFn h)).length = 24 := by simp
    rw [hlen, nsmul_eq_mul] at hsum
    have htot : aedTotalGlazing sinFn input ≤ 24 * aedMaxGlazing sinFn input := hsum
    unfold aedAvgGlazing
    rw [div_le_iff₀ (by norm_num : (0:ℚ) < 24)]
    linarith
  have hQ : 0 ≤ aedExcursionQ sinFn input := by
    unfold aedExcursionQ
    apply mul_nonneg (div_nonneg (by linarith) havg.le) (by norm_num)
  refine ⟨by simp [calculateAED, aedHourly], ?_, ?_, hQ, ?_⟩
  · show JSNum.toFixedN 1 (aedExcursionNum sinFn input) = _
    rw [hnum]
    rfl
  · show (JSNum.toFixedN 1 (aedExcursionNum sinFn input)).gec 0 = true
    rw [hnum]
    simp [JSNum.toFixedN, JSNum.gec, jsToFixed_nonneg hQ]
  · show (if (aedExcursionNum sinFn input).ltc 30 then "Pass" else "Fail") = "Fail" ↔ _
    rw [hnum]
    by_cases h30 : aedExcursionQ sinFn input < 30
    · rw [if_pos (by simp [JSNum.ltc, h30])]
      constructor
      · intro h
        simp at h
      · intro h
        linarith
    · rw [if_neg (by simp [JSNum.ltc, h30])]
      simp only [true_iff]
      linarith

/-- Claim C8, witness: one south window with positive glazing load and a
linear stand-in for the sine curve give a positive average glazing load, so
the amended AED properties apply. -/
theorem C8_witness :
    0 < aedAvgGlazing linearSin c8WitnessInput ∧
    ((calculateAED linearSin c8WitnessInput).hourlyLoads.length = 24 ∧
      (calculateAED linearSin c8WitnessInput).maxExcursionPercent =
        JSNum.num (jsToFixed 1 (aedExcursionQ linearSin c8WitnessInput)) ∧
      ((calculateAED linearSin c8WitnessInput).maxExcursionPercent).gec 0 = true ∧
      0 ≤ aedExcursionQ linearSin c8WitnessInput ∧
      (((calculateAED linearSin c8WitnessInput).status = "Fail") ↔
        30 ≤ aedExcursionQ linearSin c8WitnessInput)) :=
  ⟨by with_unfolding_all decide,
    C8_amended linearSin c8WitnessInput (by with_unfolding_all decide)⟩

/-! ## Breakdown-map and surface-fold lemmas -/

theorem bkSum_cons (p : String × ℚ) (t : List (String × ℚ)) :
    bkSum (p :: t) = p.2 + bkSum t := by
  simp [bkSum]

theorem keyMem_cons (p : String × ℚ) (t : List (String × ℚ)) (k : String) :
    keyMem (p :: t) k = ((p.1 == k) || keyMem t k) := by
  simp [keyMem]

theorem bkSum_updAdd (m : List (String × ℚ)) (k : String) (v : ℚ) :
    bkSum (updAdd m k v) = bkSum m + v := by
  induction m with
  | nil => simp [updAdd, bkSum]
  | cons p t ih =>
    by_cases h : p.1 = k
    · rw [updAdd, if_pos h, bkSum_cons, bkSum_cons]
      ring
    · rw [updAdd, if_neg h, bkSum_cons, ih, bkSum_cons]
      ring

theorem bkSum_updSet_not_mem (m : List (String × ℚ)) (k : String) (v : ℚ)
    (h : keyMem m k = false) : bkSum (updSet m k v) = bkSum m + v := by
  induction m with
  | nil => simp [updSet, bkSum]
  | cons p t ih =>
    rw [keyMem_cons, Bool.or_eq_false_iff] at h
    have hne : p.1 ≠ k := by
      intro he
      rw [he] at h
      simp at h
    rw [updSet, if_neg hne, bkSum_cons, ih h.2, bkSum_cons]
    ring

theorem keyMem_updAdd (m : List (String × ℚ)) (k1 : String) (v : ℚ) (k2 : String) :
    keyMem (updAdd m k1 v) k2 = (keyMem m k2 || (k1 == k2)) := by
  induction m with
  | nil => simp [updAdd, keyMem]
  | cons p t ih =>
    by_cases h : p.1 = k1
    · rw [updAdd, if_pos h, keyMem_cons, keyMem_cons, h]
      cases hk : (k1 == k2) <;> cases hm : keyMem t k2 <;> simp [hk, hm]
    · rw [updAdd, if_neg h, keyMem_cons, ih, keyMem_cons, Bool.or_assoc]

theorem keyMem_updSet (m : List (String × ℚ)) (k1 : String) (v : ℚ) (k2 : String) :
    keyMem (updSet m k1 v) k2 = (keyMem m k2 || (k1 == k2)) := by
  induction m with
  | nil => simp [updSet, keyMem]
  | cons p t ih =>
    by_cases h : p.1 = k1
    · rw [updSet, if_pos h, keyMem_cons, keyMem_cons, h]
      cases hk : (k1 == k2) <;> cases hm : keyMem t k2 <;> simp [hk, hm]
    · rw [updSet, if_neg h, keyMem_cons, ih, keyMem_cons, Bool.or_assoc]

theorem mem_keys_of_keyMem (m : List (String × ℚ)) (k : String)
    (h : keyMem m k = true) : k ∈ m.map Prod.fst := by
  induction m with
  | nil => simp [keyMem] at h
  | cons p t ih =>
    rw [keyMem_cons, Bool.or_eq_true_iff] at h
    rcases h with h | h
    · have : p.1 = k := by simpa using h
      simp [this]
    · simp [ih h]

theorem surfFold_heatingTotal (design : ClimateConditions) (dTH dTC : ℚ) :
    ∀ (ss : List Surface) (st : JState),
      (ss.foldl (stepSurface design dTH dTC) st).heatingTotal =
        st.heatingTotal + (ss.map (heatLoadOf dTH)).sum
  | [], st => by simp
  | s :: t, st => by
    rw [List.foldl_cons, surfFold_heatingTotal design dTH dTC t]
    simp only [stepSurface, List.map_cons, List.sum_cons]
    ring

theorem surfFold_coolingSens (design : ClimateConditions) (dTH dTC : ℚ) :
    ∀ (ss : List Surface) (st : JState),
      (ss.foldl (stepSurface design dTH dTC) st).coolingSens =
        st.coolingSens + (ss.map (coolLoadOf design dTC)).sum
  | [], st => by simp
  | s :: t, st => by
    rw [List.foldl_cons, surfFold_coolingSens design dTH dTC t]
    simp only [stepSurface, List.map_cons, List.sum_cons]
    ring

theorem surfFold_coolingLat (design : ClimateConditions) (dTH dTC : ℚ) :
    ∀ (ss : List Surface) (st : JState),
      (ss.foldl (stepSurface design dTH dTC) st).coolingLat = st.coolingLat
  | [], _ => rfl
  | s :: t, st => by
    rw [List.foldl_cons, surfFold_coolingLat design dTH dTC t]
    rfl

theorem surfFold_heatingBkSum (design : ClimateConditions) (dTH dTC : ℚ) :
    ∀ (ss : List Surface) (st : JState),
      bkSum ((ss.foldl (stepSurface design dTH dTC) st).heatingBk) =
        bkSum st.heatingBk + (ss.map (fun s => jsRound (heatLoadOf dTH s))).sum
  | [], st => by simp
  | s :: t, st => by
    rw [List.foldl_cons, surfFold_heatingBkSum design dTH dTC t]
    simp only [stepSurface, List.map_cons, List.sum_cons, bkSum_updAdd]
    ring

theorem surfFold_heatingBkKey (design : ClimateConditions) (dTH dTC : ℚ) :
    ∀ (ss : List Surface) (st : JState) (k : String),
      keyMem ((ss.foldl (stepSurface design dTH dTC) st).heatingBk) k =
        (keyMem st.heatingBk k || ss.any (fun s => s.name == k))
  | [], st, k => by simp
  | s :: t, st, k => by
    rw [List.foldl_cons, surfFold_heatingBkKey design dTH dTC t]
    simp only [stepSurface, keyMem_updAdd, List.any_cons]
    cases h1 : keyMem st.heatingBk k <;> cases h2 : (s.name == k) <;>
      cases h3 : t.any (fun s => s.name == k) <;> simp [h1, h2, h3]

theorem sum_round_err : ∀ (l : List ℚ),
    |(l.map jsRound).sum - l.sum| ≤ (l.length : ℚ) / 2
  | [] => by simp
  | a :: t => by
    simp only [List.map_cons, List.sum_cons, List.length_cons]
    have h1 := abs_le.mp (jsRound_err a)
    have h2 := abs_le.mp (sum_round_err t)
    rw [abs_le]
    push_cast
    constructor <;> linarith [h1.1, h1.2, h2.1, h2.2]

/-- Claim C5, amended: totalCooling is exactly coolingSensible plus
coolingLatent; provided no surface reuses the reserved component names, the
heating column of the breakdown sums to heatingLoad within half a unit per
rounded contribution (at most surfaces + 2 in total); the breakdown always
carries an Infiltration line item and, when the duct penalty applies, a
Duct Loss line item — but internal gains and the cooling-side duct gain
items never appear in it (refuted separately). -/
theorem C5_amended (input : ManualJInput)
    (hnames : ∀ s ∈ input.surfaces, s.name ≠ "Infiltration" ∧ s.name ≠ "Duct Loss") :
    (calculate input).totalCooling =
      (calculate input).coolingSensible + (calculate input).coolingLatent ∧
    |(calculate input).heatingLoad -
        ((calculate input).breakdown.map (fun b => b.heating)).sum| ≤
      (input.surfaces.length : ℚ) + 2 ∧
    "Infiltration" ∈ (calculate input).breakdown.map (fun b => b.component) ∧
    (input.ducts.location ≠ "conditioned" →
      "Duct Loss" ∈ (calculate input).breakdown.map (fun b => b.component)) := by
  have hload : (calculate input).heatingLoad = jsRound (heatingTotalQ input) := rfl
  have hBkH : ((calculate input).breakdown.map (fun b => b.heating)).sum =
      bkSum (heatingBkFinal input) := by
    show (((heatingBkFinal input).map _).map _).sum = _
    rw [List.map_map]
    rfl
  have hComp : (calculate input).breakdown.map (fun b => b.component) =
      (heatingBkFinal input).map Prod.fst := by
    show ((heatingBkFinal input).map _).map _ = _
    rw [List.map_map]
    rfl
  have hanyInf : input.surfaces.any (fun s => s.name == "Infiltration") = false := by
    rw [List.any_eq_false]
    intro s hs
    simpa using (hnames s hs).1
  have hanyDuct : input.surfaces.any (fun s => s.name == "Duct Loss") = false := by
    rw [List.any_eq_false]
    intro s hs
    simpa using (hnames s hs).2
  have hkeyInf : keyMem (surfState input).heatingBk "Infiltration" = false := by
    unfold surfState
    rw [surfFold_heatingBkKey, hanyInf]
    rfl
  have hkeyDuct : keyMem (surfState input).heatingBk "Duct Loss" = false := by
    unfold surfState
    rw [surfFold_heatingBkKey, hanyDuct]
    rfl
  have hSurfSum : (surfState input).heatingTotal =
      (input.surfaces.map (heatLoadOf (dTHeat input.design))).sum := by
    unfold surfState
    rw [surfFold_heatingTotal]
    show (0 : ℚ) + _ = _
    ring
  have hSurfBkSum : bkSum (surfState input).heatingBk =
      (input.surfaces.map (fun s => jsRound (heatLoadOf (dTHeat input.design) s))).sum := by
    unfold surfState
    rw [surfFold_heatingBkSum]
    show bkSum [] + _ = _
    simp [bkSum]
  have hbkPre : bkSum (heatingBkPre input) =
      bkSum (surfState input).heatingBk + jsRound (infHeatQ input) :=
    bkSum_updSet_not_mem _ _ _ hkeyInf
  have hkeyPreDuct : keyMem (heatingBkPre input) "Duct Loss" = false := by
    unfold heatingBkPre
    rw [keyMem_updSet, hkeyDuct]
    simp
  have hkeyPreInf : keyMem (heatingBkPre input) "Infiltration" = true := by
    unfold heatingBkPre
    rw [keyMem_updSet]
    simp
  have e1 := abs_le.mp (sum_round_err (input.surfaces.map (heatLoadOf (dTHeat input.design))))
  rw [List.map_map, List.length_map] at e1
  simp only [Function.comp_def] at e1
  have e2 := abs_le.mp (jsRound_err (infHeatQ input))
  have en : (0 : ℚ) ≤ (input.surfaces.length : ℚ) := by positivity
  have e0 := abs_le.mp (jsRound_err (heatingTotalQ input))
  refine ⟨rfl, ?_, ?_, ?_⟩
  · rw [hload, hBkH]
    by_cases hd : input.ducts.location ≠ "conditioned"
    · have hQ : heatingTotalQ input =
          (input.surfaces.map (heatLoadOf (dTHeat input.design))).sum +
            infHeatQ input + ductHeatQ input := by
        unfold heatingTotalQ
        rw [if_pos hd]
        unfold preDuctHeating
        rw [hSurfSum]
      have hBkF : bkSum (heatingBkFinal input) =
          (input.surfaces.map (fun s => jsRound (heatLoadOf (dTHeat input.design) s))).sum +
            jsRound (infHeatQ input) + jsRound (ductHeatQ input) := by
        unfold heatingBkFinal
        rw [if_pos hd, bkSum_updSet_not_mem _ _ _ hkeyPreDuct, hbkPre, hSurfBkSum]
      have e3 := abs_le.mp (jsRound_err (ductHeatQ input))
      rw [hBkF, abs_le]
      constructor <;>
        linarith [e0.1, e0.2, e1.1, e1.2, e2.1, e2.2, e3.1, e3.2, hQ, en]
    · have hQ : heatingTotalQ input =
          (input.surfaces.map (heatLoadOf (dTHeat input.design))).sum + infHeatQ input := by
        unfold heatingTotalQ
        rw [if_neg hd]
        unfold preDuctHeating
        rw [hSurfSum]
      have hBkF : bkSum (heatingBkFinal input) =
          (input.surfaces.map (fun s => jsRound (heatLoadOf (dTHeat input.design) s))).sum +
            jsRound (infHeatQ input) := by
        unfold heatingBkFinal
        rw [if_neg hd, hbkPre, hSurfBkSum]
      rw [hBkF, abs_le]
      constructor <;>
        linarith [e0.1, e0.2, e1.1, e1.2, e2.1, e2.2, hQ, en]
  · rw [hComp]
    apply mem_keys_of_keyMem
    unfold heatingBkFinal
    by_cases hd : input.ducts.location ≠ "conditioned"
    · rw [if_pos hd, keyMem_updSet, hkeyPreInf]
      rfl
    · rw [if_neg hd]
      exact hkeyPreInf
  · intro hd
    rw [hComp]
    apply mem_keys_of_keyMem
    unfold heatingBkFinal
    rw [if_pos hd, keyMem_updSet]
    simp

/-- Claim C5, witness: a concrete attic-duct input with one wall surface,
infiltration and occupants instantiates the amended breakdown properties. -/
theorem C5_witness :
    (∀ s ∈ ductWitnessInput.surfaces,
      s.name ≠ "Infiltration" ∧ s.name ≠ "Duct Loss") ∧
    ((calculate ductWitnessInput).totalCooling =
      (calculate ductWitnessInput).coolingSensible +
        (calculate ductWitnessInput).coolingLatent ∧
    |(calculate ductWitnessInput).heatingLoad -
        ((calculate ductWitnessInput).breakdown.map (fun b => b.heating)).sum| ≤
      (ductWitnessInput.surfaces.length : ℚ) + 2 ∧
    "Infiltration" ∈ (calculate ductWitnessInput).breakdown.map (fun b => b.component) ∧
    (ductWitnessInput.ducts.location ≠ "conditioned" →
      "Duct Loss" ∈ (calculate ductWitnessInput).breakdown.map (fun b => b.component))) :=
  ⟨by with_unfolding_all decide, C5_amended ductWitnessInput (by with_unfolding_all decide)⟩

/-! ## Monotonicity lemmas for claim C10 -/

theorem dTHeat_nonneg (design : ClimateConditions) : 0 ≤ dTHeat design :=
  le_max_left 0 _

theorem dTCool_nonneg (design : ClimateConditions) : 0 ≤ dTCool design :=
  le_max_left 0 _

theorem solarTable_entries_nonneg (b : ℚ) (tbl : List (String × ℚ))
    (h : solarTable b = some tbl) : ∀ p ∈ tbl, 0 ≤ p.2 := by
  unfold solarTable at h
  split_ifs at h <;> injection h with h <;> subst h <;>
    intro p hp <;> fin_cases hp <;> norm_num

theorem tblLookup_default_nonneg (tbl : List (String × ℚ)) (o : String)
    (h : ∀ p ∈ tbl, 0 ≤ p.2) :
    0 ≤ (match tblLookup tbl o with
         | none => (50 : ℚ)
         | some v => if v = 0 then 50 else v) := by
  induction tbl with
  | nil => norm_num [tblLookup]
  | cons p t ih =>
    rw [tblLookup]
    by_cases hk : p.1 = o
    · rw [if_pos hk]
      by_cases hv : p.2 = 0
      · simp only [hv, if_pos rfl]
        norm_num
      · simp only [if_neg hv]
        exact h p (by simp)
    · rw [if_neg hk]
      exact ih (fun q hq => h q (by simp [hq]))

theorem getSolarGainFactor_nonneg (lat : ℚ) (orient : String) :
    0 ≤ getSolarGainFactor lat orient := by
  unfold getSolarGainFactor
  dsimp only
  cases htab : solarTable (max 30 (min 50 (jsRound (lat / 10) * 10))) with
  | none => norm_num
  | some table =>
    exact tblLookup_default_nonneg table orient (solarTable_entries_nonneg _ _ htab)

theorem shadeFactor_set_area (s : Surface) (a2 : ℚ) :
    shadeFactor { s with area := a2 } = shadeFactor s := rfl

theorem shadeFactor_set_uValue (s : Surface) (u2 : ℚ) :
    shadeFactor { s with uValue := u2 } = shadeFactor s := rfl

theorem heatLoadOf_mono {dTH : ℚ} (hdT : 0 ≤ dTH) {s s2 : Surface}
    (hcase : (∃ a2, s2 = { s with area := a2 } ∧ s.area ≤ a2 ∧ 0 ≤ s.uValue) ∨
             (∃ u2, s2 = { s with uValue := u2 } ∧ s.uValue ≤ u2 ∧ 0 ≤ s.area)) :
    heatLoadOf dTH s ≤ heatLoadOf dTH s2 := by
  unfold heatLoadOf
  rcases hcase with ⟨a2, rfl, ha, hu⟩ | ⟨u2, rfl, hu, ha⟩
  · exact mul_le_mul_of_nonneg_right (mul_le_mul_of_nonneg_left ha hu) hdT
  · exact mul_le_mul_of_nonneg_right (mul_le_mul_of_nonneg_right hu ha) hdT

theorem coolLoadOf_mono (design : ClimateConditions) {dTC : ℚ} (hdT : 0 ≤ dTC)
    {s s2 : Surface}
    (hcase : (∃ a2, s2 = { s with area := a2 } ∧ s.area ≤ a2 ∧ 0 ≤ s.uValue) ∨
             (∃ u2, s2 = { s with uValue := u2 } ∧ s.uValue ≤ u2 ∧ 0 ≤ s.area))
    (hshgc : 0 ≤ s.shgc.getD 0) (hshade : 0 ≤ shadeFactor s)
    (hcltd : 0 ≤ s.cltd.getD 0) :
    coolLoadOf design dTC s ≤ coolLoadOf design dTC s2 := by
  have hF := getSolarGainFactor_nonneg design.latitude (s.orientation.getD "")
  unfold coolLoadOf
  rcases hcase with ⟨a2, rfl, ha, hu⟩ | ⟨u2, rfl, hu, ha⟩ <;>
    simp only [shadeFactor_set_area, shadeFactor_set_uValue]
  · by_cases h1 : ((s.type == "window") && truthyOptQ s.shgc && truthyOptS s.orientation) = true
    · simp only [h1, if_true]
      have k1 : s.uValue * s.area * dTC ≤ s.uValue * a2 * dTC :=
        mul_le_mul_of_nonneg_right (mul_le_mul_of_nonneg_left ha hu) hdT
      have k2 : s.area * s.shgc.getD 0 *
            getSolarGainFactor design.latitude (s.orientation.getD "") * shadeFactor s ≤
          a2 * s.shgc.getD 0 *
            getSolarGainFactor design.latitude (s.orientation.getD "") * shadeFactor s :=
        mul_le_mul_of_nonneg_right
          (mul_le_mul_of_nonneg_right (mul_le_mul_of_nonneg_right ha hshgc) hF) hshade
      linarith
    · simp only [h1, if_false]
      by_cases h2 : s.cltd.isSome = true
      · simp only [h2, if_true]
        exact mul_le_mul_of_nonneg_right (mul_le_mul_of_nonneg_left ha hu) hcltd
      · simp only [h2, if_false]
        exact mul_le_mul_of_nonneg_right (mul_le_mul_of_nonneg_left ha hu) hdT
  · by_cases h1 : ((s.type == "window") && truthyOptQ s.shgc && truthyOptS s.orientation) = true
    · simp only [h1, if_true]
      have k1 : s.uValue * s.area * dTC ≤ u2 * s.area * dTC :=
        mul_le_mul_of_nonneg_right (mul_le_mul_of_nonneg_right hu ha) hdT
      linarith
    · simp only [h1, if_false]
      by_cases h2 : s.cltd.isSome = true
      · simp only [h2, if_true]
        exact mul_le_mul_of_nonneg_right (mul_le_mul_of_nonneg_right hu ha) hcltd
      · simp only [h2, if_false]
        exact mul_le_mul_of_nonneg_right (mul_le_mul_of_nonneg_right hu ha) hdT

/-- Claim C10, amended: for two inputs identical except that one surface of
the second has a larger area (with the surface U-value non-negative) or a
larger U-value (with the surface area non-negative), and with the modified
surface having a non-negative SHGC, shading factor and CLTD, the heating
load and the cooling sensible load never decrease; the restriction to
non-negative surface parameters is forced by the negative-U-value
counterexample. -/
theorem C10_amended (base : ManualJInput) (l1 l2 : List Surface) (s s2 : Surface)
    (hcase : (∃ a2, s2 = { s with area := a2 } ∧ s.area ≤ a2 ∧ 0 ≤ s.uValue) ∨
             (∃ u2, s2 = { s with uValue := u2 } ∧ s.uValue ≤ u2 ∧ 0 ≤ s.area))
    (hshgc : 0 ≤ s.shgc.getD 0) (hshade : 0 ≤ shadeFactor s)
    (hcltd : 0 ≤ s.cltd.getD 0) :
    (calculate { base with surfaces := l1 ++ s :: l2 }).heatingLoad ≤
      (calculate { base with surfaces := l1 ++ s2 :: l2 }).heatingLoad ∧
    (calculate { base with surfaces := l1 ++ s :: l2 }).coolingSensible ≤
      (calculate { base with surfaces := l1 ++ s2 :: l2 }).coolingSensible := by
  have hheat := heatLoadOf_mono (dTHeat_nonneg base.design) hcase
  have hcool := coolLoadOf_mono base.design (dTCool_nonneg base.design) hcase hshgc hshade hcltd
  have hpreH : preDuctHeating { base with surfaces := l1 ++ s :: l2 } ≤
      preDuctHeating { base with surfaces := l1 ++ s2 :: l2 } := by
    unfold preDuctHeating surfState
    dsimp only
    rw [surfFold_heatingTotal, surfFold_heatingTotal]
    simp only [List.map_append, List.sum_append, List.map_cons, List.sum_cons]
    have hi : infHeatQ { base with surfaces := l1 ++ s :: l2 } =
        infHeatQ { base with surfaces := l1 ++ s2 :: l2 } := rfl
    rw [hi]
    linarith [hheat]
  have hpreC : preDuctCoolingSens { base with surfaces := l1 ++ s :: l2 } ≤
      preDuctCoolingSens { base with surfaces := l1 ++ s2 :: l2 } := by
    unfold preDuctCoolingSens surfState
    dsimp only
    rw [surfFold_coolingSens, surfFold_coolingSens]
    simp only [List.map_append, List.sum_append, List.map_cons, List.sum_cons]
    have hi : infCoolSensQ { base with surfaces := l1 ++ s :: l2 } =
        infCoolSensQ { base with surfaces := l1 ++ s2 :: l2 } := rfl
    have hp : peopleSensQ { base with surfaces := l1 ++ s :: l2 } =
        peopleSensQ { base with surfaces := l1 ++ s2 :: l2 } := rfl
    rw [hi, hp]
    linarith [hcool]
  constructor
  · show jsRound (heatingTotalQ _) ≤ jsRound (heatingTotalQ _)
    apply jsRound_mono
    unfold heatingTotalQ ductHeatQ
    dsimp only
    by_cases hd : base.ducts.location ≠ "conditioned"
    · rw [if_pos hd, if_pos hd]
      linarith [hpreH]
    · rw [if_neg hd, if_neg hd]
      exact hpreH
  · show jsRound (coolingSensTotalQ _) ≤ jsRound (coolingSensTotalQ _)
    apply jsRound_mono
    unfold coolingSensTotalQ ductCoolQ
    dsimp only
    by_cases hd : base.ducts.location ≠ "conditioned"
    · rw [if_pos hd, if_pos hd]
      linarith [hpreC]
    · rw [if_neg hd, if_neg hd]
      exact hpreC

/-- Claim C10, witness: doubling the area of a non-negative-U wall never
decreases the heating or cooling sensible load. -/
theorem C10_witness :
    (wallSurface.area ≤ 200 ∧ 0 ≤ wallSurface.uValue ∧
      0 ≤ wallSurface.shgc.getD 0 ∧ 0 ≤ shadeFactor wallSurface ∧
      0 ≤ wallSurface.cltd.getD 0) ∧
    (calculate { ductWitnessInput with surfaces := [] ++ wallSurface :: [] }).heatingLoad ≤
      (calculate { ductWitnessInput with
        surfaces := [] ++ ({ wallSurface with area := 200 } : Surface) :: [] }).heatingLoad ∧
    (calculate { ductWitnessInput with surfaces := [] ++ wallSurface :: [] }).coolingSensible ≤
      (calculate { ductWitnessInput with
        surfaces := [] ++ ({ wallSurface with area := 200 } : Surface) :: [] }).coolingSensible := by
  refine ⟨⟨by with_unfolding_all decide, by with_unfolding_all decide,
    by with_unfolding_all decide, by with_unfolding_all decide,
    by with_unfolding_all decide⟩, ?_⟩
  exact C10_amended ductWitnessInput [] [] wallSurface { wallSurface with area := 200 }
    (Or.inl ⟨200, rfl, by with_unfolding_all decide, by with_unfolding_all decide⟩)
    (by with_unfolding_all decide) (by with_unfolding_all decide)
    (by with_unfolding_all decide)

end HvacApp
